import Mathlib

/-!
Verification of `coincidence` (python-coincidence/coincidence): a shallow
embedding of the canonicalization logic of
`AdvancedDataRegressionFixture.check`, the text-check dispatch of
`AdvancedFileRegressionFixture.check`, the `param` helper, the whitespace
permutation generator, and the truthy/falsy value catalogues, together with
theorems checking the specification's claims about them.
-/

namespace Coincidence

/--
Model of the Python values relevant to `coincidence.regressions` and
`coincidence.utils`.  Dict-like values carry string keys (all keys appearing
in this code base are strings).  `captureResult` models
`_pytest.capture.CaptureResult[str]` and `captureResultBytes` models
`CaptureResult[bytes]` (the class is generic over `AnyStr`, so both streams
have the same type).  `namedtuple` carries the class name (used by
`type(x).__name__`) and the ordered field list; `stringList` models
`domdf_python_tools.stringlist.StringList`, a `list` subclass of strings.
-/
inductive PyVal where
  | bool (b : Bool)
  | int (n : ℤ)
  | none
  | str (s : String)
  | bytes (bs : List ℕ)
  | list (xs : List PyVal)
  | tuple (xs : List PyVal)
  | stringList (lines : List String)
  | dict (entries : List (String × PyVal))
  | mappingProxy (entries : List (String × PyVal))
  | namedtuple (name : String) (fields : List (String × PyVal))
  | captureResult (out err : String)
  | captureResultBytes (out err : List ℕ)

/-- The line-boundary characters recognised by Python's `str.splitlines`. -/
def isLineBreak (c : Char) : Bool :=
  c = '\n' || c = '\r' || c = '\x0b' || c = '\x0c' ||
    c = '\x1c' || c = '\x1d' || c = '\x1e' || c = '\u0085' ||
    c = '\u2028' || c = '\u2029'

/-- Worker for `pySplitlines`: scans the character list, accumulating the
current line (in reverse) and emitting it at each line boundary; `\r\n`
counts as a single boundary; a trailing line with no final newline is kept,
but a trailing empty remainder is not. -/
def splitlinesAux : List Char → List Char → List (List Char)
  | [], acc => if acc.isEmpty then [] else [acc.reverse]
  | '\r' :: '\n' :: rest, acc => acc.reverse :: splitlinesAux rest []
  | c :: rest, acc =>
      if isLineBreak c then acc.reverse :: splitlinesAux rest []
      else splitlinesAux rest (c :: acc)

/-- Model of Python's `str.splitlines()` (without `keepends`). -/
def pySplitlines (s : String) : List String :=
  (splitlinesAux s.data []).map String.mk

/-- `isinstance(x, (Mapping, OrderedDict, Counter, defaultdict,
MappingProxyType, ChainMap))`: the mapping-like branch guard of
`AdvancedDataRegressionFixture.check` (all the listed classes are
registered `collections.abc.Mapping`s). -/
def isMapping : PyVal → Bool
  | .dict _ | .mappingProxy _ => true
  | _ => false

/-- `isinstance(x, CaptureResult) and isinstance(x.out, str)`: the
dual-stream text-result branch guard.  A `CaptureResult[bytes]` fails the
second conjunct. -/
def isTextCaptureResult : PyVal → Bool
  | .captureResult _ _ => true
  | _ => false

/-- `isinstance(x, SupportsAsDict)`: the `runtime_checkable` protocol check,
true for any object with an `_asdict` method — named tuples, but also
`_pytest.capture.CaptureResult` itself (str or bytes). -/
def supportsAsDict : PyVal → Bool
  | .namedtuple _ _ => true
  | .captureResult _ _ => true
  | .captureResultBytes _ _ => true
  | _ => false

/-- `isinstance(x, Sequence)`: true for registered
`collections.abc.Sequence`s, which include `str`, `bytes`, `list`, `tuple`
(hence named tuples) and `list` subclasses such as `StringList`.
`CaptureResult` is not registered as a `Sequence`. -/
def isSequence : PyVal → Bool
  | .str _ | .bytes _ | .list _ | .tuple _ | .stringList _ | .namedtuple _ _ => true
  | _ => false

/-- `dict(x)` for a mapping-like value: its key/value pairs in iteration
order.  (Only meaningful under `isMapping`.) -/
def mappingEntries : PyVal → List (String × PyVal)
  | .dict es | .mappingProxy es => es
  | _ => []

/-- `dict(x._asdict())`: field/value pairs of a named tuple; for a
`CaptureResult`, the two streams keyed `"out"` and `"err"`.  (Only
meaningful under `supportsAsDict`.) -/
def pyAsdict : PyVal → List (String × PyVal)
  | .namedtuple _ fs => fs
  | .captureResult o e => [("out", .str o), ("err", .str e)]
  | .captureResultBytes o e => [("out", .bytes o), ("err", .bytes e)]
  | _ => []

/-- `dict(out=x.out.splitlines(), err=x.err.splitlines())`: the conversion
applied in the `CaptureResult`-with-`str`-out branch.  (Only meaningful
under `isTextCaptureResult`.) -/
def captureSplitlines : PyVal → List (String × PyVal)
  | .captureResult o e =>
      [("out", .list ((pySplitlines o).map .str)),
       ("err", .list ((pySplitlines e).map .str))]
  | _ => []

/-- `list(x)` for a sequence: for `str` the one-character strings, for
`bytes` the integers, for a named tuple its field values.  (Only meaningful
under `isSequence`.) -/
def pyListOf : PyVal → List PyVal
  | .str s => s.data.map (fun c => .str (String.mk [c]))
  | .bytes bs => bs.map (fun b => .int b)
  | .list xs => xs
  | .tuple xs => xs
  | .stringList ls => ls.map .str
  | .namedtuple _ fs => fs.map (fun f => f.2)
  | _ => []

/-- The canonicalization step of `AdvancedDataRegressionFixture.check`
(regressions.py lines 248–258): the `if`/`elif` chain testing, in order,
mapping-like, dual-stream text capture result, `_asdict` capability,
sequence; anything else is passed through unchanged. -/
def canonicalize (v : PyVal) : PyVal :=
  if isMapping v then .dict (mappingEntries v)
  else if isTextCaptureResult v then .dict (captureSplitlines v)
  else if supportsAsDict v then .dict (pyAsdict v)
  else if isSequence v then .list (pyListOf v)
  else v

/-- C4: canonicalizing a captured dual-stream result with
`out = "Hello World\n\t\tBoo!\t\t"` and
`err = "Trailing whitespace bad        "` yields the two-key mapping whose
values are the streams split on line boundaries. -/
theorem canonicalize_capsys_example :
    canonicalize (.captureResult "Hello World\n\t\tBoo!\t\t" "Trailing whitespace bad        ") =
      .dict [("out", .list [.str "Hello World", .str "\t\tBoo!\t\t"]),
             ("err", .list [.str "Trailing whitespace bad        "])] := rfl

/-- C1 counterexample: a `CaptureResult` with text streams supports the
as-dict capability, yet `check` converts it via the dual-stream splitlines
rule, not via `_asdict` — so the as-dict category does not come before the
dual-stream category. -/
theorem capture_beats_asdict_counterexample :
    supportsAsDict (.captureResult "a\nb" "") = true ∧
    canonicalize (.captureResult "a\nb" "") ≠ .dict (pyAsdict (.captureResult "a\nb" "")) ∧
    canonicalize (.captureResult "a\nb" "") =
      .dict (captureSplitlines (.captureResult "a\nb" "")) := by
  refine ⟨rfl, ?_, rfl⟩
  intro h
  have h1 : canonicalize (.captureResult "a\nb" "") =
      .dict [("out", .list [.str "a", .str "b"]), ("err", .list [])] := rfl
  have h2 : pyAsdict (.captureResult "a\nb" "") =
      [("out", .str "a\nb"), ("err", .str "")] := rfl
  rw [h1, h2] at h
  injection h with h
  injection h with h _
  injection h with _ h
  exact PyVal.noConfusion h

/-- C1 (amended): the recognized categories are tested in the priority
order mapping-like, then captured dual-stream text result, then as-dict
capability, then ordered sequence; in particular a value supporting both
the as-dict capability and the dual-stream text shape is converted via the
dual-stream rule, a named tuple (which is both an as-dict record and a
sequence) is converted via its `_asdict`, and a bytes-stream capture result
(which fails the text-stream guard) falls through to its `_asdict`. -/
theorem canonicalize_priority :
    (∀ o e, supportsAsDict (.captureResult o e) = true ∧
      canonicalize (.captureResult o e) =
        .dict [("out", .list ((pySplitlines o).map .str)),
               ("err", .list ((pySplitlines e).map .str))]) ∧
    (∀ nm fs, isSequence (.namedtuple nm fs) = true ∧
      canonicalize (.namedtuple nm fs) = .dict fs) ∧
    (∀ o e, supportsAsDict (.captureResultBytes o e) = true ∧
      canonicalize (.captureResultBytes o e) =
        .dict [("out", .bytes o), ("err", .bytes e)]) :=
  ⟨fun _ _ => ⟨rfl, rfl⟩, fun _ _ => ⟨rfl, rfl⟩, fun _ _ => ⟨rfl, rfl⟩⟩

/-- C2 counterexample: a plain string is not passed through unchanged —
`str` is a registered `Sequence`, so the sequence branch turns `"ab"` into
the list of its one-character strings. -/
theorem string_not_passed_through_counterexample :
    canonicalize (.str "ab") = .list [.str "a", .str "b"] ∧
    canonicalize (.str "ab") ≠ .str "ab" :=
  ⟨rfl, fun h => PyVal.noConfusion h⟩

/-- C2 (amended): a plain string, being a registered `Sequence`, is
converted by `check` into the list of its one-character strings (raw text
is *not* excluded from the sequence rule); scalars that fall outside every
recognized category — integers, booleans, `None` — are passed through
unchanged. -/
theorem canonicalize_string_and_scalars :
    (∀ s : String, canonicalize (.str s) =
      .list (s.data.map (fun c => .str (String.mk [c])))) ∧
    (∀ n : ℤ, canonicalize (.int n) = .int n) ∧
    (∀ b : Bool, canonicalize (.bool b) = .bool b) ∧
    canonicalize .none = .none :=
  ⟨fun _ => rfl, fun _ => rfl, fun _ => rfl, rfl⟩

/-- C3 counterexample: a scalar string is not a fixed point of
canonicalization — canonicalizing the already-"canonical" scalar `"xy"`
yields its character list, not the same value. -/
theorem string_not_fixed_point_counterexample :
    canonicalize (.str "xy") ≠ .str "xy" ∧
    canonicalize (.str "xy") = .list [.str "x", .str "y"] :=
  ⟨fun h => PyVal.noConfusion h, rfl⟩

/-- C3 (amended): canonicalization is idempotent — plain mappings and plain
ordered sequences are fixed points, and for every input canonicalizing
twice equals canonicalizing once; scalar strings, however, are not fixed
points (they canonicalize to character lists). -/
theorem canonicalize_idempotent :
    (∀ es, canonicalize (.dict es) = .dict es) ∧
    (∀ xs, canonicalize (.list xs) = .list xs) ∧
    (∀ v, canonicalize (canonicalize v) = canonicalize v) := by
  refine ⟨fun _ => rfl, fun _ => rfl, fun v => ?_⟩
  cases v <;> rfl

/-- Each element of the list paired with the list of the remaining elements
(original order preserved): the choice step of `itertools.permutations`. -/
def selections {α : Type} : List α → List (α × List α)
  | [] => []
  | x :: xs => (x, xs) :: (selections xs).map (fun p => (p.1, x :: p.2))

/-- Model of `itertools.permutations(pool, n)`: all length-`n` tuples of
elements at distinct positions, emitted in lexicographic order of the index
tuples (so `pyPermutations 0 l = [[]]`). -/
def pyPermutations {α : Type} : ℕ → List α → List (List α)
  | 0, _ => [[]]
  | n + 1, l => (selections l).flatMap (fun p => (pyPermutations n p.2).map (fun q => p.1 :: q))

/-- `whitespace = " \t\n\r"` (utils.py line 250). -/
def whitespace : String := " \t\n\r"

/-- Model of `whitespace_perms_list()` (utils.py lines 253–256):
`chain.from_iterable(permutations(whitespace, n) for n in Len(whitespace))`
joined into strings, where `Len(whitespace) = range(len(whitespace))`
iterates `n = 0, 1, 2, 3`.  (The `lru_cache` only affects when the value is
computed, not what it is.) -/
def whitespace_perms_list : List String :=
  (List.range whitespace.length).flatMap
    (fun n => (pyPermutations n whitespace.data).map (fun cs => String.mk cs))

/-- Python's `int()` applied to a rational: truncation toward zero. -/
def pyInt (q : ℚ) : ℤ :=
  if 0 ≤ q then ⌊q⌋ else ⌈q⌉

/-- The results `random.sample(pop, k)` can produce: for `0 ≤ k ≤ len(pop)`
a list of `k` elements chosen without replacement (a permutation of a
sub-multiset of the population, in any order); otherwise a `ValueError`. -/
def PyRandomSample {α : Type} (pop : List α) (k : ℤ) : Except String (List α) → Prop
  | .ok out => 0 ≤ k ∧ k.toNat ≤ pop.length ∧ out.length = k.toNat ∧ out.Subperm pop
  | .error msg => (k < 0 ∨ (pop.length : ℤ) < k) ∧
      msg = "Sample larger than population or is negative"

/-- The number of permutations `whitespace_perms(r)` asks `random.sample`
for: `int(len(perms) * ratio)` (params.py line 100). -/
def wsSampleSize (r : ℚ) : ℤ :=
  pyInt ((whitespace_perms_list.length : ℚ) * r)

/-- Model of `whitespace_perms(ratio)` (params.py lines 83–100, default
ratio `0.5`): the possible lists of `char` parameters it passes to
`pytest.mark.parametrize`, i.e. the possible results of
`random.sample(whitespace_perms_list(), int(len(perms) * ratio))`. -/
def WhitespacePerms (r : ℚ) (res : Except String (List String)) : Prop :=
  PyRandomSample whitespace_perms_list (wsSampleSize r) res

/-- The fixed truthy catalogue of `generate_truthy_values`
(utils.py lines 189–205), in source order. -/
def truthy_values : List PyVal :=
  [.bool true, .str "True", .str "true", .str "tRUe",
   .str "y", .str "Y", .str "YES", .str "yes", .str "Yes", .str "yEs",
   .str "ON", .str "on", .str "1", .int 1]

/-- The fixed falsy catalogue of `generate_falsy_values`
(utils.py lines 226–242), in source order. -/
def falsy_values : List PyVal :=
  [.bool false, .str "False", .str "false", .str "falSE",
   .str "n", .str "N", .str "NO", .str "no", .str "nO",
   .str "OFF", .str "off", .str "oFF", .str "0", .int 0]

/-- Model of `generate_truthy_values(extra_truthy, ratio)`
(utils.py lines 176–210): the possible value sequences it yields — the
fixed catalogue with the extras appended, down-sampled through
`random.sample(values, int(len(values) * ratio))` when `ratio < 1`. -/
def GenerateTruthyValues (extra : List PyVal) (r : ℚ)
    (res : Except String (List PyVal)) : Prop :=
  if r < 1 then
    PyRandomSample (truthy_values ++ extra)
      (pyInt (((truthy_values ++ extra).length : ℚ) * r)) res
  else res = .ok (truthy_values ++ extra)

/-- Model of `generate_falsy_values(extra_falsy, ratio)`
(utils.py lines 213–247), analogous to `GenerateTruthyValues`. -/
def GenerateFalsyValues (extra : List PyVal) (r : ℚ)
    (res : Except String (List PyVal)) : Prop :=
  if r < 1 then
    PyRandomSample (falsy_values ++ extra)
      (pyInt (((falsy_values ++ extra).length : ℚ) * r)) res
  else res = .ok (falsy_values ++ extra)

/-- `s.lower()`. -/
def pyLower (s : String) : String := String.mk (s.data.map Char.toLower)

/-- Whether `f` is the false-equivalent form of the truthy value `t`:
`True`↦`False`, a "true"-word ↦ a "false"-word, a y/yes form ↦ an n/no
form, an "on" form ↦ an "off" form, `'1'`↦`'0'`, `1`↦`0` (case-insensitive
on the words). -/
def isFalseEquivOf (t f : PyVal) : Bool :=
  match t, f with
  | .bool true, .bool false => true
  | .int 1, .int 0 => true
  | .str a, .str b =>
      (pyLower a == "true" && pyLower b == "false") ||
      (pyLower a == "y" && pyLower b == "n") ||
      (pyLower a == "yes" && pyLower b == "no") ||
      (pyLower a == "on" && pyLower b == "off") ||
      (a == "1" && b == "0")
  | _, _ => false

/-- `type(x).__name__` for the modelled values. -/
def pyTypeName : PyVal → String
  | .bool _ => "bool"
  | .int _ => "int"
  | .none => "NoneType"
  | .str _ => "str"
  | .bytes _ => "bytes"
  | .list _ => "list"
  | .tuple _ => "tuple"
  | .stringList _ => "StringList"
  | .dict _ => "dict"
  | .mappingProxy _ => "mappingproxy"
  | .namedtuple nm _ => nm
  | .captureResult _ _ => "CaptureResult"
  | .captureResultBytes _ _ => "CaptureResult"

/-- `isinstance(x, str)`. -/
def isStr : PyVal → Bool
  | .str _ => true
  | _ => false

/-- `isinstance(x, StringList)`. -/
def isStringList : PyVal → Bool
  | .stringList _ => true
  | _ => false

/-- `str(StringList)`: the lines joined with newlines. -/
def stringListStr (lines : List String) : String :=
  String.intercalate "\n" lines

/-- Model of the input dispatch of `AdvancedFileRegressionFixture.check`
(regressions.py lines 282–330): a `StringList` is first converted with
`str()`; anything that is then not a `str` raises
`TypeError(f"Expected text contents but received type {...!r}")` — before
`perform_regression_check` runs, so before any reference file is read or
written.  The `.ok` payload is the text handed on to the dump/compare
primitive; the `.error` payload is the `TypeError` message. -/
def advancedFileRegressionCheck (contents : PyVal) : Except String String :=
  let converted := match contents with
    | .stringList ls => PyVal.str (stringListStr ls)
    | c => c
  match converted with
  | .str s => .ok s
  | c => .error ("Expected text contents but received type \x27" ++ pyTypeName c ++ "\x27")

/-- A pytest `ParameterSet` as built by `coincidence.params.param`:
the values, the marks, and the id (by `cast(str, values[idx])` the id can
be a non-string value, which pytest complains about later, hence
`Option PyVal`). -/
structure ParameterSet where
  values : List PyVal
  marks : List String
  id : Option PyVal

/-- Model of `coincidence.params.param` (params.py lines 142–189): if more
than one of `id`, `idx`, `key` is not `None`, a `ValueError` is raised
before any `ParameterSet` is constructed; otherwise the id is resolved
(`values[idx]` for `idx`, which can raise `IndexError`; `key(values)` for
`key`) and `ParameterSet.param(*values, marks=marks, id=id)` is returned. -/
def param (values : List PyVal) (marks : List String)
    (id : Option String) (idx : Option ℕ)
    (key : Option (List PyVal → String)) : Except String ParameterSet :=
  if 1 < ([id.isSome, idx.isSome, key.isSome].count true) then
    .error "\x27id\x27, \x27idx\x27 and \x27key\x27 are mutually exclusive."
  else
    match idx with
    | some i =>
        match values[i]? with
        | some v => .ok ⟨values, marks, some v⟩
        | Option.none => .error "IndexError: tuple index out of range"
    | Option.none =>
        match key with
        | some k => .ok ⟨values, marks, some (.str (k values))⟩
        | Option.none => .ok ⟨values, marks, id.map .str⟩

/-- The permutation list as the spec's words for C6 describe it:
permutations of the whitespace alphabet "for every length from 1 through
4", flattened in the same order.  This definition follows the spec, not the
source; it exists only to be compared against `whitespace_perms_list`. -/
def spec_whitespace_perms_one_to_four : List String :=
  [1, 2, 3, 4].flatMap
    (fun n => (pyPermutations n whitespace.data).map (fun cs => String.mk cs))

/-- C5: `whitespace_perms_list()` has exactly 41 strings; with the default
ratio `0.5` the `whitespace_perms` decorator parametrizes exactly
`int(41 * 0.5) = 20` of them (a 20-element selection without replacement
from the list), and with ratio `1` it parametrizes all 41 (every possible
sample is a permutation of the whole list). -/
theorem whitespace_perms_counts (res₀ res₁ : Except String (List String))
    (h₀ : WhitespacePerms (1/2) res₀) (h₁ : WhitespacePerms 1 res₁) :
    whitespace_perms_list.length = 41 ∧
    (∃ out, res₀ = .ok out ∧ out.length = 20 ∧ out.Subperm whitespace_perms_list) ∧
    (∃ out, res₁ = .ok out ∧ out.Perm whitespace_perms_list) := by
  have hlen : whitespace_perms_list.length = 41 := by decide
  have hk₀ : wsSampleSize (1/2) = 20 := by
    unfold wsSampleSize pyInt
    rw [hlen]
    norm_num
  have hk₁ : wsSampleSize 1 = 41 := by
    unfold wsSampleSize pyInt
    rw [hlen]
    norm_num
  refine ⟨hlen, ?_, ?_⟩
  · cases res₀ with
    | ok out =>
        obtain ⟨-, -, hl, hs⟩ := h₀
        exact ⟨out, rfl, by rw [hl, hk₀]; rfl, hs⟩
    | error msg =>
        obtain ⟨hbad, -⟩ := h₀
        rw [hk₀, hlen] at hbad
        omega
  · cases res₁ with
    | ok out =>
        obtain ⟨-, -, hl, hs⟩ := h₁
        refine ⟨out, rfl, hs.perm_of_length_le ?_⟩
        rw [hl, hk₁, hlen]
        rfl
    | error msg =>
        obtain ⟨hbad, -⟩ := h₁
        rw [hk₁, hlen] at hbad
        omega

/-- C5 witness: concrete samples — the first 20 permutations for the
default ratio, the whole list for ratio 1. -/
theorem whitespace_perms_counts_witness :
    whitespace_perms_list.length = 41 ∧
    (∃ out, (Except.ok (whitespace_perms_list.take 20) : Except String (List String)) = .ok out ∧
      out.length = 20 ∧ out.Subperm whitespace_perms_list) ∧
    (∃ out, (Except.ok whitespace_perms_list : Except String (List String)) = .ok out ∧
      out.Perm whitespace_perms_list) := by
  have hk₀ : wsSampleSize (1/2) = 20 := by
    have hlen : whitespace_perms_list.length = 41 := by decide
    unfold wsSampleSize pyInt
    rw [hlen]
    norm_num
  have hk₁ : wsSampleSize 1 = 41 := by
    have hlen : whitespace_perms_list.length = 41 := by decide
    unfold wsSampleSize pyInt
    rw [hlen]
    norm_num
  refine whitespace_perms_counts _ _ ?_ ?_
  · show PyRandomSample whitespace_perms_list (wsSampleSize (1/2)) _
    rw [hk₀]
    exact ⟨by norm_num, by decide, by decide,
      (List.take_sublist 20 whitespace_perms_list).subperm⟩
  · show PyRandomSample whitespace_perms_list (wsSampleSize 1) _
    rw [hk₁]
    exact ⟨by norm_num, by decide, by decide, List.Subperm.refl _⟩

/-- C6 counterexample: `whitespace_perms_list()` is not the list of all
permutations of lengths 1 through 4 — it has 41 strings, not 64, it
contains the empty string (the length-0 permutation), and it contains no
length-4 permutation such as `" \t\n\r"`. -/
theorem whitespace_perms_list_counterexample :
    whitespace_perms_list.length = 41 ∧
    spec_whitespace_perms_one_to_four.length = 64 ∧
    "" ∈ whitespace_perms_list ∧
    "" ∉ spec_whitespace_perms_one_to_four ∧
    " \t\n\r" ∈ spec_whitespace_perms_one_to_four ∧
    " \t\n\r" ∉ whitespace_perms_list ∧
    whitespace_perms_list ≠ spec_whitespace_perms_one_to_four := by decide

/-- C6 (amended): `whitespace_perms_list()` enumerates, for each length
`n` in `range(len(" \t\n\r")) = 0, 1, 2, 3`, all permutations without
repetition of the 4-character whitespace alphabet, flattened in order:
exactly these `1 + 4 + 12 + 24 = 41` strings, beginning with the empty
permutation. -/
theorem whitespace_perms_list_eq :
    whitespace_perms_list =
      ["", " ", "\t", "\n", "\r",
       " \t", " \n", " \r", "\t ", "\t\n", "\t\r",
       "\n ", "\n\t", "\n\r", "\r ", "\r\t", "\r\n",
       " \t\n", " \t\r", " \n\t", " \n\r", " \r\t", " \r\n",
       "\t \n", "\t \r", "\t\n ", "\t\n\r", "\t\r ", "\t\r\n",
       "\n \t", "\n \r", "\n\t ", "\n\t\r", "\n\r ", "\n\r\t",
       "\r \t", "\r \n", "\r\t ", "\r\t\n", "\r\n ", "\r\n\t"] := by decide

/-- C7 counterexample: with no extras and ratio 1 the two generators yield
exactly their catalogues, but at index 9 the falsy value is `"OFF"` while
the truthy value is `"yEs"` — an off-form standing against a yes-form, so
the falsy value is not the false-equivalent of the truthy value at that
index. -/
theorem falsy_mirror_counterexample :
    GenerateTruthyValues [] 1 (.ok truthy_values) ∧
    GenerateFalsyValues [] 1 (.ok falsy_values) ∧
    truthy_values[9]? = some (.str "yEs") ∧
    falsy_values[9]? = some (.str "OFF") ∧
    isFalseEquivOf (.str "yEs") (.str "OFF") = false := by
  refine ⟨?_, ?_, rfl, rfl, by decide⟩
  · unfold GenerateTruthyValues
    rw [if_neg (lt_irrefl (1 : ℚ)), List.append_nil]
  · unfold GenerateFalsyValues
    rw [if_neg (lt_irrefl (1 : ℚ)), List.append_nil]

/-- C7 (amended): with no extras and ratio 1, `generate_falsy_values()`
yields, in order, `False, "False", "false", "falSE", "n", "N", "NO", "no",
"nO", "OFF", "off", "oFF", "0", 0`; both catalogues have 14 entries and the
falsy entry is the false-equivalent of the truthy entry at every index
except index 9, where the truthy list's sixth yes-form `"yEs"` stands
against the falsy list's first off-form `"OFF"` (the truthy list has six
y/yes-forms and two on-forms, the falsy list five n/no-forms and three
off-forms). -/
theorem generate_falsy_mirrors_truthy (res : Except String (List PyVal))
    (h : GenerateFalsyValues [] 1 res) :
    res = .ok falsy_values ∧
    truthy_values.length = 14 ∧ falsy_values.length = 14 ∧
    (truthy_values.zip falsy_values).map (fun p => isFalseEquivOf p.1 p.2) =
      [true, true, true, true, true, true, true, true, true,
       false, true, true, true, true] := by
  refine ⟨?_, by decide, by decide, by decide⟩
  unfold GenerateFalsyValues at h
  rw [if_neg (lt_irrefl (1 : ℚ)), List.append_nil] at h
  exact h

/-- C7 witness: the amended theorem applied at the deterministic
ratio-1 output. -/
theorem generate_falsy_mirrors_truthy_witness :
    (Except.ok falsy_values : Except String (List PyVal)) = .ok falsy_values ∧
    truthy_values.length = 14 ∧ falsy_values.length = 14 ∧
    (truthy_values.zip falsy_values).map (fun p => isFalseEquivOf p.1 p.2) =
      [true, true, true, true, true, true, true, true, true,
       false, true, true, true, true] :=
  generate_falsy_mirrors_truthy (.ok falsy_values) (by
    unfold GenerateFalsyValues
    rw [if_neg (lt_irrefl (1 : ℚ)), List.append_nil])

/-- For `0 ≤ r ≤ 1` the requested sample size `int(N * r)` is between `0`
and `N`. -/
theorem pyInt_mul_bounds (N : ℕ) (r : ℚ) (h0 : 0 ≤ r) (h1 : r ≤ 1) :
    0 ≤ pyInt ((N : ℚ) * r) ∧ pyInt ((N : ℚ) * r) ≤ (N : ℤ) := by
  have hq : 0 ≤ (N : ℚ) * r := mul_nonneg (Nat.cast_nonneg N) h0
  unfold pyInt
  rw [if_pos hq]
  refine ⟨Int.floor_nonneg.mpr hq, ?_⟩
  calc ⌊(N : ℚ) * r⌋ ≤ ⌊(N : ℚ)⌋ :=
        Int.floor_le_floor (mul_le_of_le_one_right (Nat.cast_nonneg N) h1)
    _ = N := Int.floor_natCast N

/-- C10 (amended): for `0 ≤ r < 1` each generator yields exactly
`int(N * r)` values (where `N` counts the catalogue with the extras
appended) chosen without replacement; for `r ≥ 1` it yields the full
catalogue unchanged and in order.  `whitespace_perms(r)`, by contrast,
always samples: it selects exactly `int(41 * r)` permutations without
replacement whenever that size is at most 41, and raises a `ValueError`
when the requested size exceeds the population (e.g. at `r = 2`). -/
theorem sampling_ratio_counts :
    (∀ (extra : List PyVal) (r : ℚ) (res : Except String (List PyVal)),
      0 ≤ r → r < 1 → GenerateTruthyValues extra r res →
      ∃ out, res = .ok out ∧
        out.length = (pyInt (((truthy_values ++ extra).length : ℚ) * r)).toNat ∧
        out.Subperm (truthy_values ++ extra)) ∧
    (∀ (extra : List PyVal) (r : ℚ) (res : Except String (List PyVal)),
      0 ≤ r → r < 1 → GenerateFalsyValues extra r res →
      ∃ out, res = .ok out ∧
        out.length = (pyInt (((falsy_values ++ extra).length : ℚ) * r)).toNat ∧
        out.Subperm (falsy_values ++ extra)) ∧
    (∀ (extra : List PyVal) (r : ℚ) (res : Except String (List PyVal)),
      1 ≤ r → GenerateTruthyValues extra r res → res = .ok (truthy_values ++ extra)) ∧
    (∀ (extra : List PyVal) (r : ℚ) (res : Except String (List PyVal)),
      1 ≤ r → GenerateFalsyValues extra r res → res = .ok (falsy_values ++ extra)) ∧
    (∀ (r : ℚ) (res : Except String (List String)),
      0 ≤ r → wsSampleSize r ≤ 41 → WhitespacePerms r res →
      ∃ out, res = .ok out ∧ out.length = (wsSampleSize r).toNat ∧
        out.Subperm whitespace_perms_list) ∧
    (∀ (r : ℚ) (res : Except String (List String)),
      41 < wsSampleSize r → WhitespacePerms r res → ∃ msg, res = .error msg) := by
  have hws : whitespace_perms_list.length = 41 := by decide
  refine ⟨?_, ?_, ?_, ?_, ?_, ?_⟩
  · intro extra r res h0 h1 h
    unfold GenerateTruthyValues at h
    rw [if_pos h1] at h
    obtain ⟨hk0, hkN⟩ := pyInt_mul_bounds (truthy_values ++ extra).length r h0 h1.le
    cases res with
    | ok out =>
        obtain ⟨-, -, hlen, hsub⟩ := h
        exact ⟨out, rfl, hlen, hsub⟩
    | error msg =>
        obtain ⟨hbad, -⟩ := h
        omega
  · intro extra r res h0 h1 h
    unfold GenerateFalsyValues at h
    rw [if_pos h1] at h
    obtain ⟨hk0, hkN⟩ := pyInt_mul_bounds (falsy_values ++ extra).length r h0 h1.le
    cases res with
    | ok out =>
        obtain ⟨-, -, hlen, hsub⟩ := h
        exact ⟨out, rfl, hlen, hsub⟩
    | error msg =>
        obtain ⟨hbad, -⟩ := h
        omega
  · intro extra r res h1 h
    unfold GenerateTruthyValues at h
    rwa [if_neg (not_lt.mpr h1)] at h
  · intro extra r res h1 h
    unfold GenerateFalsyValues at h
    rwa [if_neg (not_lt.mpr h1)] at h
  · intro r res h0 hle h
    unfold WhitespacePerms at h
    have hk0 : 0 ≤ wsSampleSize r := by
      unfold wsSampleSize pyInt
      have hq : 0 ≤ (whitespace_perms_list.length : ℚ) * r :=
        mul_nonneg (Nat.cast_nonneg _) h0
      rw [if_pos hq]
      exact Int.floor_nonneg.mpr hq
    cases res with
    | ok out =>
        obtain ⟨-, -, hlen, hsub⟩ := h
        exact ⟨out, rfl, hlen, hsub⟩
    | error msg =>
        obtain ⟨hbad, -⟩ := h
        rw [hws] at hbad
        omega
  · intro r res hk h
    unfold WhitespacePerms at h
    cases res with
    | ok out =>
        obtain ⟨hk0, hle, -, -⟩ := h
        rw [hws] at hle
        omega
    | error msg => exact ⟨_, rfl⟩

/-- C10 witness: the truthy generator at ratio `1/2` with no extras —
`int(14 * 0.5) = 7` values, here the first seven of the catalogue. -/
theorem sampling_ratio_counts_witness :
    ∃ out, (Except.ok (truthy_values.take 7) : Except String (List PyVal)) = .ok out ∧
      out.length = (pyInt (((truthy_values ++ []).length : ℚ) * (1/2))).toNat ∧
      out.Subperm (truthy_values ++ []) := by
  have hk : pyInt (((truthy_values ++ []).length : ℚ) * (1/2)) = 7 := by
    have h14 : (truthy_values ++ []).length = 14 := by decide
    rw [h14]
    unfold pyInt
    norm_num
  refine sampling_ratio_counts.1 [] (1/2) (.ok (truthy_values.take 7))
    (by norm_num) (by norm_num) ?_
  unfold GenerateTruthyValues
  rw [if_pos (by norm_num : (1/2 : ℚ) < 1)]
  show PyRandomSample _ _ _
  rw [hk]
  exact ⟨by norm_num, by decide, by decide, (List.take_sublist 7 _).subperm⟩

/-- C10 counterexample: `whitespace_perms` does not "always select exactly
`int(41 * r)` permutations" — at `r = 2` the requested sample size is 82,
larger than the 41-element population, so no successful selection is
possible (`random.sample` raises `ValueError`). -/
theorem whitespace_perms_ratio_two_counterexample :
    wsSampleSize 2 = 82 ∧ ¬ ∃ out, WhitespacePerms 2 (.ok out) := by
  have hlen : whitespace_perms_list.length = 41 := by decide
  have hk : wsSampleSize 2 = 82 := by
    unfold wsSampleSize pyInt
    rw [hlen]
    norm_num
  refine ⟨hk, ?_⟩
  rintro ⟨out, h⟩
  obtain ⟨-, hle, -, -⟩ := h
  rw [hk, hlen] at hle
  omega

/-- C8: `AdvancedFileRegressionFixture.check` on any input that is neither
a `str` nor a `StringList` immediately raises
`TypeError(f"Expected text contents but received type {...!r}")`, naming
the received value's type, and hands nothing on to
`perform_regression_check` — no reference file is read or written. -/
theorem file_check_rejects_non_text (v : PyVal)
    (h1 : isStr v = false) (h2 : isStringList v = false) :
    advancedFileRegressionCheck v =
      .error ("Expected text contents but received type \x27" ++ pyTypeName v ++ "\x27") := by
  cases v <;> first
    | rfl
    | exact Bool.noConfusion h1
    | exact Bool.noConfusion h2

/-- C8 witness: a list and an integer are rejected with the messages naming
their types. -/
theorem file_check_rejects_non_text_witness :
    advancedFileRegressionCheck (.list []) =
      .error ("Expected text contents but received type \x27" ++ pyTypeName (.list []) ++ "\x27") :=
  file_check_rejects_non_text (.list []) rfl rfl

/-- C9: whenever more than one of `id`, `idx` and `key` is given a
non-`None` value, `param` raises
`ValueError("'id', 'idx' and 'key' are mutually exclusive.")` — the guard
runs first, so no `ParameterSet` is constructed and no id value is
computed. -/
theorem param_mutually_exclusive (values : List PyVal) (marks : List String)
    (id : Option String) (idx : Option ℕ) (key : Option (List PyVal → String))
    (h : 1 < ([id.isSome, idx.isSome, key.isSome].count true)) :
    param values marks id idx key =
      .error "\x27id\x27, \x27idx\x27 and \x27key\x27 are mutually exclusive." := by
  unfold param
  rw [if_pos h]

/-- C9 witness: `param("x", id="3^2", idx=0)` raises the mutual-exclusion
`ValueError`. -/
theorem param_mutually_exclusive_witness :
    param [.str "x"] [] (some "3^2") (some 0) Option.none =
      .error "\x27id\x27, \x27idx\x27 and \x27key\x27 are mutually exclusive." :=
  param_mutually_exclusive [.str "x"] [] (some "3^2") (some 0) Option.none (by decide)

end Coincidence
